import Mathlib

/-!
Verification of the Historical-Backend artifact service.

Shallow embedding of `src/index.js`: an Express + MongoDB service exposing
CRUD and like/unlike operations over a single collection of artifact
documents, with cookie-based JWT authentication.

Modelling conventions:
* A MongoDB document is the structure `Artifact`; the single collection
  (`historyCollection`) is an association list `Store` from `_id` strings to
  documents (`_id` is store-assigned and unique).
* JavaScript values that may be `undefined` are `Option`s; JS string
  truthiness (`!s` is true for `undefined` and `""`) is `strTruthy`.
* Each Express handler becomes a pure function from the request data and the
  current store to a response value and the next store; the sequential
  (single request at a time) semantics executes the handler atomically.
  Concurrent executions of the like-toggle handler are modelled separately
  by interleaving its two store accesses (`findOne` and `updateOne`), which
  are the only suspension points.
* `new ObjectId(id)` throws on a string that is not 24 hex characters; the
  handlers call it inside `try`/`catch`, so a malformed id yields the catch
  branch (HTTP 500).  `isValidId` models the constructor's acceptance test.
-/

set_option autoImplicit false

namespace Historical

/-- JS string-field truthiness: `undefined` and `""` are falsy. -/
def strTruthy : Option String → Bool
  | none => false
  | some s => s != ""

/-- The `addedBy` sub-document; the handlers only ever read its `email`. -/
structure AddedBy where
  email : Option String
  deriving DecidableEq, Repr

/-- An artifact document as stored in the `Historical` collection
(`src/index.js`): eight descriptive fields, the creator object, and the
denormalised like state. -/
structure Artifact where
  name : Option String
  image : Option String
  type : Option String
  description : Option String
  createdAt : Option String
  discoveredAt : Option String
  discoveredBy : Option String
  location : Option String
  addedBy : Option AddedBy
  likedBy : List String
  likeCount : Int
  deriving DecidableEq, Repr

/-- `artifact.addedBy?.email` (optional chaining: `undefined` when `addedBy`
is absent). -/
def addedByEmail (a : Artifact) : Option String :=
  match a.addedBy with
  | some ab => ab.email
  | none => none

/-- The collection: association list from `_id` to document, first entry
wins on lookup (ids are store-assigned and unique). -/
abbrev Store := List (String × Artifact)

/-- `findOne({_id})`: first document with the given id. -/
def findDoc (id : String) : Store → Option Artifact
  | [] => none
  | (k, v) :: rest => if k = id then some v else findDoc id rest

/-- `updateOne({_id}, u)`: apply `f` to the first document with the given
id, leave everything else unchanged. -/
def updateDoc (id : String) (f : Artifact → Artifact) : Store → Store
  | [] => []
  | (k, v) :: rest =>
    if k = id then (k, f v) :: rest else (k, v) :: updateDoc id f rest

/-- `deleteOne({_id})`: remove the first document with the given id. -/
def removeDoc (id : String) : Store → Store
  | [] => []
  | (k, v) :: rest => if k = id then rest else (k, v) :: removeDoc id rest

/-- `insertOne`: add a document under a fresh store-assigned id. -/
def insertDoc (id : String) (a : Artifact) (store : Store) : Store :=
  (id, a) :: store

/-- Hex digit as accepted by the `ObjectId` constructor
(`/^[0-9a-fA-F]{24}$/`). -/
def isHexChar (c : Char) : Bool :=
  c.isDigit || ('a' ≤ c && c ≤ 'f') || ('A' ≤ c && c ≤ 'F')

/-- `new ObjectId(id)` succeeds exactly on 24-character hex strings; on
anything else it throws, which the handlers' `catch` turns into HTTP 500. -/
def isValidId (s : String) : Bool :=
  s.length == 24 && s.data.all isHexChar

/-- The atomic MongoDB update document issued by the like-toggle handler,
as a function of the `hasLiked` value captured at read time:
`hasLiked` → `{$inc: {likeCount: -1}, $pull: {likedBy: email}}`
(`$pull` removes every occurrence), otherwise
`{$inc: {likeCount: 1}, $addToSet: {likedBy: email}}`
(`$addToSet` appends only if the element is not already present). -/
def applyUpdate (hasLiked : Bool) (e : String) (a : Artifact) : Artifact :=
  if hasLiked then
    { a with likeCount := a.likeCount - 1,
             likedBy := a.likedBy.filter (fun x => x != e) }
  else
    { a with likeCount := a.likeCount + 1,
             likedBy := if a.likedBy.contains e then a.likedBy
                        else a.likedBy ++ [e] }

/-- The sequential effect of one like-toggle on a document: read
`hasLiked = likedBy.includes(email)` and apply the corresponding update.
(The handler's `artifact.likedBy = artifact.likedBy || []` normalisation is
the identity here since `likedBy` is always an array in the model.) -/
def toggleDoc (e : String) (a : Artifact) : Artifact :=
  applyUpdate (a.likedBy.contains e) e a

/-- Response of `PATCH /artifact/:id/like`. -/
inductive ToggleResp where
  | badRequest
  | notFound
  | ok (liked : Bool)
  | serverError
  deriving DecidableEq, Repr

/-- Handler of `PATCH /artifact/:id/like` (src/index.js lines 142-184):
reject a falsy email with 400 before anything else; then, inside `try`,
build the `ObjectId` (malformed id → catch → 500), `findOne` (missing →
404), compute `hasLiked`, and issue the conditional atomic update.  The
`$inc` always modifies the matched document, so sequentially
`modifiedCount === 1` holds whenever the document was found and the handler
answers 200 with `liked: !hasLiked`. -/
def toggleLike (id : String) (email : Option String) (store : Store) :
    ToggleResp × Store :=
  if strTruthy email = false then (.badRequest, store)
  else
    match email with
    | none => (.badRequest, store)
    | some e =>
      if isValidId id then
        match findDoc id store with
        | none => (.notFound, store)
        | some a =>
          (.ok (!(a.likedBy.contains e)),
           updateDoc id (applyUpdate (a.likedBy.contains e) e) store)
      else (.serverError, store)

/-- Response of `POST /history`. -/
inductive PostResp where
  | badRequest
  | created (id : String)
  deriving DecidableEq, Repr

/-- Handler of `POST /history` (src/index.js lines 78-102): reject with 400
when `artifact.addedBy?.email` is falsy (absent `addedBy`, absent `email`,
or empty string); otherwise overwrite `likedBy` with `[]` and `likeCount`
with `0` regardless of what the caller supplied, insert, and answer 201
with the inserted id. -/
def postHistory (body : Artifact) (newId : String) (store : Store) :
    PostResp × Store :=
  if strTruthy (addedByEmail body) then
    (.created newId, insertDoc newId { body with likedBy := [], likeCount := 0 } store)
  else
    (.badRequest, store)

/-- One pattern character matched against one subject character, with the
`i` (case-insensitive) option.  Models the MongoDB `$regex` fragment used in
this development: the only metacharacter handled is `.` (any single
character); every other pattern character is literal. -/
def patCharMatch (p c : Char) : Bool :=
  p == '.' || p.toLower == c.toLower

/-- Anchored match of the whole pattern at the start of the subject. -/
def matchHere : List Char → List Char → Bool
  | [], _ => true
  | _ :: _, [] => false
  | p :: ps, c :: cs => patCharMatch p c && matchHere ps cs

/-- Unanchored regex search (MongoDB `$regex` with option `i`): the pattern
matches at some position of the subject. -/
def regexSearch (p : List Char) : List Char → Bool
  | [] => matchHere p []
  | c :: cs => matchHere p (c :: cs) || regexSearch p cs

/-- The filter of `GET /history?search=`:
`{ name: { $regex: search, $options: "i" } }` — a document matches when its
`name` field exists and the regex finds a match in it. -/
def nameMatches (s : String) (a : Artifact) : Bool :=
  match a.name with
  | some n => regexSearch s.data n.data
  | none => false

/-- Handler of `GET /history` (src/index.js lines 105-119): a truthy
`search` query builds the case-insensitive regex filter on `name`;
otherwise the query is `{}` and every document is returned. -/
def getHistory (search : Option String) (store : Store) : List Artifact :=
  if strTruthy search then
    (store.map Prod.snd).filter (fun a => nameMatches (search.getD "") a)
  else
    store.map Prod.snd

/-- Anchored literal-list comparison used by the spec-side search predicate:
`p` is an initial segment of `s`. -/
def leadEq : List Char → List Char → Bool
  | [], _ => true
  | _ :: _, [] => false
  | a :: as, b :: bs => a == b && leadEq as bs

/-- `p` occurs as a contiguous sublist of `s`. -/
def subOccurs (p : List Char) : List Char → Bool
  | [] => leadEq p []
  | c :: cs => leadEq p (c :: cs) || subOccurs p cs

/-- Spec-side search predicate, written from the spec's words: "the
artifacts whose `name` case-insensitively contains `s` as a substring".
Kept separate from `nameMatches` (which models the code's `$regex` filter)
so the two can be compared. -/
def specSearchMatch (s : String) (a : Artifact) : Bool :=
  match a.name with
  | some n => subOccurs (s.data.map Char.toLower) (n.data.map Char.toLower)
  | none => false

/-- A regex-plain character: not a metacharacter of the regex dialect, so
it matches only literally. -/
def plainChar (c : Char) : Bool :=
  !(['.', '^', '$', '*', '+', '?', '(', ')', '[', ']',
     '\x7b', '\x7d', '|', '\\'].contains c)

/-- Outcome of `verifyToken` (src/index.js lines 21-34): no cookie → 401,
`jwt.verify` failure → 401, success → the decoded claims (whose `email`
may itself be absent, since `POST /jwt` signs whatever body it is given). -/
inductive TokenCheck where
  | missing
  | invalid
  | valid (email : Option String)
  deriving DecidableEq, Repr

/-- Response of `GET /my-artifacts`. -/
inductive MyResp where
  | unauthorized
  | forbidden
  | badRequest
  | ok (docs : List Artifact)
  deriving DecidableEq, Repr

/-- The filter of `GET /my-artifacts`: `{ "addedBy.email": email }` — the
dotted query matches documents whose `addedBy.email` equals the value. -/
def addedByEmailIs (q : Option String) (a : Artifact) : Bool :=
  addedByEmail a == q

/-- Handler of `GET /my-artifacts` (src/index.js lines 122-139), behind
`verifyToken`.  Note the order in the source: the identity-mismatch check
`req.user.email !== req.query.email` (403) runs BEFORE the missing-email
check `!email` (400). -/
def myArtifacts (tok : TokenCheck) (queryEmail : Option String)
    (store : Store) : MyResp :=
  match tok with
  | .missing => .unauthorized
  | .invalid => .unauthorized
  | .valid userEmail =>
    if userEmail ≠ queryEmail then .forbidden
    else if strTruthy queryEmail = false then .badRequest
    else .ok ((store.map Prod.snd).filter (addedByEmailIs queryEmail))

/-- Response of `GET /liked-artifacts`. -/
inductive LikedResp where
  | unauthorized
  | notFound
  | ok (docs : List Artifact)
  deriving DecidableEq, Repr

/-- The filter of `GET /liked-artifacts`: `{ likedBy: email }` — an
equality query against an array field matches documents whose array
contains the value.  (A token without an `email` claim queries against
`undefined`, which matches no document whose `likedBy` is an array.) -/
def likedByHas (e : Option String) (a : Artifact) : Bool :=
  match e with
  | some s => a.likedBy.contains s
  | none => false

/-- Handler of `GET /liked-artifacts` (src/index.js lines 254-271), behind
`verifyToken`: find all documents liked by the verified email; answer 200
with the list when it is non-empty, 404 otherwise. -/
def likedArtifacts (tok : TokenCheck) (store : Store) : LikedResp :=
  match tok with
  | .missing => .unauthorized
  | .invalid => .unauthorized
  | .valid userEmail =>
    let docs := (store.map Prod.snd).filter (likedByHas userEmail)
    if docs.length > 0 then .ok docs else .notFound

/-- The request body of `PATCH /artifact/:id`: the eight descriptive
fields destructured by the handler; `none` is a field absent from the body
(`undefined`). -/
structure UpdateReq where
  name : Option String
  image : Option String
  type : Option String
  description : Option String
  createdAt : Option String
  discoveredAt : Option String
  discoveredBy : Option String
  location : Option String
  deriving DecidableEq, Repr

/-- The `$set` document of `PATCH /artifact/:id`: every one of the eight
descriptive fields is overwritten with the supplied value (including
`undefined` when absent from the body); `addedBy`, `likedBy` and
`likeCount` are not mentioned and stay untouched. -/
def applyUpdateFields (u : UpdateReq) (a : Artifact) : Artifact :=
  { a with name := u.name, image := u.image, type := u.type,
           description := u.description, createdAt := u.createdAt,
           discoveredAt := u.discoveredAt, discoveredBy := u.discoveredBy,
           location := u.location }

/-- Response of `PATCH /artifact/:id`. -/
inductive UpdateResp where
  | ok
  | notFound
  | serverError
  deriving DecidableEq, Repr

/-- Handler of `PATCH /artifact/:id` (src/index.js lines 187-217):
malformed id → catch → 500; otherwise `updateOne` with the `$set` above,
answering 200 when `modifiedCount === 1` (the document existed and the
`$set` changed it) and 404 otherwise ("not found or no changes made"). -/
def updateArtifact (id : String) (u : UpdateReq) (store : Store) :
    UpdateResp × Store :=
  if isValidId id then
    match findDoc id store with
    | none => (.notFound, store)
    | some a =>
      (if applyUpdateFields u a = a then UpdateResp.notFound else UpdateResp.ok,
       updateDoc id (applyUpdateFields u) store)
  else (.serverError, store)

/-- Response of `DELETE /artifact/:id`. -/
inductive DeleteResp where
  | ok
  | notFound
  | serverError
  deriving DecidableEq, Repr

/-- Handler of `DELETE /artifact/:id` (src/index.js lines 220-234):
malformed id → catch → 500; otherwise `deleteOne`, answering 200 when
`deletedCount === 1` and 404 otherwise. -/
def deleteArtifact (id : String) (store : Store) : DeleteResp × Store :=
  if isValidId id then
    match findDoc id store with
    | some _ => (.ok, removeDoc id store)
    | none => (.notFound, store)
  else (.serverError, store)

/-- Response of `GET /artifact/:id`. -/
inductive GetResp where
  | ok (a : Artifact)
  | notFound
  | serverError
  deriving DecidableEq, Repr

/-- Handler of `GET /artifact/:id` (src/index.js lines 237-251):
malformed id → catch → 500; otherwise `findOne`, answering 200 with the
document or 404. -/
def getArtifact (id : String) (store : Store) : GetResp :=
  if isValidId id then
    match findDoc id store with
    | some a => .ok a
    | none => .notFound
  else .serverError

/-! Section: Interleaved executions of the like-toggle handler

The handler's only suspension points are its two store operations: the
`findOne` that captures `hasLiked`, and the `updateOne` that applies the
conditional atomic update.  A concurrent execution of several toggle
requests on the same document is therefore an interleaving of `read` and
`write` events, each event atomic against the document. -/

/-- One in-flight toggle request: its email and, once its `findOne` has
run, the `hasLiked` value it captured. -/
structure PendingOp where
  email : String
  captured : Option Bool
  deriving DecidableEq, Repr

/-- A scheduler event: opn `i` performs its `findOne` (capturing
`hasLiked` from the current document) or its `updateOne` (applying the
atomic update computed from its captured value). -/
inductive Evt where
  | read (i : Nat)
  | write (i : Nat)
  deriving DecidableEq, Repr

/-- Configuration of a concurrent execution against one document. -/
structure Conc where
  doc : Artifact
  ops : List PendingOp
  deriving DecidableEq, Repr

/-- Small-step semantics of one scheduler event. -/
def concStep (c : Conc) : Evt → Conc
  | .read i =>
    match c.ops.get? i with
    | some op =>
      { c with ops :=
          c.ops.set i { op with captured := some (c.doc.likedBy.contains op.email) } }
    | none => c
  | .write i =>
    match c.ops.get? i with
    | some op =>
      match op.captured with
      | some h => { c with doc := applyUpdate h op.email c.doc }
      | none => c
    | none => c

/-- Run a schedule of events from a configuration. -/
def runSched (c : Conc) (sched : List Evt) : Conc :=
  sched.foldl concStep c

/-! Section: Concrete fixtures -/

/-- A well-formed `ObjectId` string (24 hex characters). -/
def exId : String := "0123456789abcdef01234567"

/-- A second well-formed `ObjectId` string. -/
def exId2 : String := "ffffffffffffffffffffffff"

/-- An artifact exactly as `POST /history` stores it: `likedBy = []`,
`likeCount = 0`. -/
def exArtifact : Artifact :=
  { name := some "Urn", image := none, type := none, description := none,
    createdAt := none, discoveredAt := none, discoveredBy := none,
    location := none, addedBy := some ⟨some "u@x.com"⟩,
    likedBy := [], likeCount := 0 }

/-! Section: List helper lemmas -/

theorem filter_ne_of_not_mem (l : List String) (e : String) (h : e ∉ l) :
    l.filter (fun x => x != e) = l := by
  apply List.filter_eq_self.mpr
  intro a ha
  simp only [bne_iff_ne, ne_eq, decide_eq_true_eq]
  rintro rfl; exact h ha

theorem contains_filter_ne (l : List String) (e : String) :
    (l.filter (fun x => x != e)).contains e = false := by
  rw [Bool.eq_false_iff]
  intro hc
  have hm := List.mem_filter.mp (List.elem_iff.mp hc)
  simp at hm

theorem contains_append_singleton (l : List String) (e : String) :
    (l ++ [e]).contains e = true :=
  List.elem_iff.mpr (by simp)

theorem length_filter_ne (l : List String) (e : String)
    (hnd : l.Nodup) (he : e ∈ l) :
    (l.filter (fun x => x != e)).length + 1 = l.length := by
  induction l with
  | nil => cases he
  | cons x xs ih =>
    obtain ⟨hx, hxs⟩ := List.nodup_cons.mp hnd
    by_cases hxe : x = e
    · subst hxe
      rw [List.filter_cons_of_neg (by simp), filter_ne_of_not_mem xs x hx]
      simp
    · have hmem : e ∈ xs := by
        rcases List.mem_cons.mp he with h | h
        · exact absurd h.symm hxe
        · exact h
      rw [List.filter_cons_of_pos (by simp [hxe])]
      simp only [List.length_cons]
      rw [Nat.add_right_comm, ih hxs hmem]

/-! Section: Behaviour of a single toggle on a document -/

theorem toggleDoc_contains (e : String) (a : Artifact) :
    (toggleDoc e a).likedBy.contains e = !(a.likedBy.contains e) := by
  unfold toggleDoc applyUpdate
  cases h : a.likedBy.contains e with
  | true => simp [h, contains_filter_ne]
  | false => simp [h, contains_append_singleton]

theorem toggleDoc_count (e : String) (a : Artifact) :
    (toggleDoc e a).likeCount =
      if a.likedBy.contains e then a.likeCount - 1 else a.likeCount + 1 := by
  unfold toggleDoc applyUpdate
  cases h : a.likedBy.contains e <;> simp [h]

theorem toggleDoc_preserves (e : String) (a : Artifact)
    (hnd : a.likedBy.Nodup) (hc : a.likeCount = (a.likedBy.length : Int)) :
    (toggleDoc e a).likedBy.Nodup ∧
      (toggleDoc e a).likeCount = ((toggleDoc e a).likedBy.length : Int) := by
  unfold toggleDoc applyUpdate
  cases h : a.likedBy.contains e with
  | true =>
    have hmem : e ∈ a.likedBy := List.elem_iff.mp h
    refine ⟨by simpa using hnd.filter _, ?_⟩
    have hlen := length_filter_ne a.likedBy e hnd hmem
    simp only [if_pos rfl]
    simp only [h, if_true]
    omega
  | false =>
    have hmem : e ∉ a.likedBy := by
      intro hm
      have h2 : a.likedBy.contains e = true := List.elem_iff.mpr hm
      rw [h] at h2
      cases h2
    simp only [h, if_false, Bool.false_eq_true]
    constructor
    · simp [List.nodup_append, hmem, hnd]
    · simp only [List.length_append, List.length_cons, List.length_nil]
      omega

/-- C1 invariant preservation, folded over a list of toggles. -/
theorem toggleDoc_foldl_preserves (emails : List String) (a : Artifact)
    (hnd : a.likedBy.Nodup) (hc : a.likeCount = (a.likedBy.length : Int)) :
    (emails.foldl (fun d ev => toggleDoc ev d) a).likedBy.Nodup ∧
      (emails.foldl (fun d ev => toggleDoc ev d) a).likeCount =
        ((emails.foldl (fun d ev => toggleDoc ev d) a).likedBy.length : Int) := by
  induction emails generalizing a with
  | nil => exact ⟨hnd, hc⟩
  | cons e rest ih =>
    have h := toggleDoc_preserves e a hnd hc
    exact ih (toggleDoc e a) h.1 h.2

/-- C1:  For every artifact document that starts in a state satisfying
`likeCount == |likedBy|` with `likedBy` a duplicate-free sequence (as all
documents created via `POST /history` do: they start at `0` and `[]`), and
for every sequence of sequentially executed successful like-toggle
operations on it, the resulting document still satisfies
`likeCount == |likedBy|`. -/
theorem c1_toggle_sequence_invariant (emails : List String) (a : Artifact)
    (hnd : a.likedBy.Nodup) (hc : a.likeCount = (a.likedBy.length : Int)) :
    (emails.foldl (fun d ev => toggleDoc ev d) a).likeCount =
      ((emails.foldl (fun d ev => toggleDoc ev d) a).likedBy.length : Int) :=
  (toggleDoc_foldl_preserves emails a hnd hc).2

/-- Witness for C1 at a concrete input: three toggles (two users, the first
toggling twice) on a freshly created artifact. -/
theorem c1_toggle_sequence_invariant_witness :
    (["a@x.com", "b@x.com", "a@x.com"].foldl
        (fun d ev => toggleDoc ev d) exArtifact).likeCount =
      ((["a@x.com", "b@x.com", "a@x.com"].foldl
        (fun d ev => toggleDoc ev d) exArtifact).likedBy.length : Int) :=
  c1_toggle_sequence_invariant ["a@x.com", "b@x.com", "a@x.com"] exArtifact
    (by decide) (by decide)

/-! Section: Store lemmas -/

theorem findDoc_updateDoc_self (id : String) (f : Artifact → Artifact)
    (store : Store) :
    findDoc id (updateDoc id f store) = (findDoc id store).map f := by
  induction store with
  | nil => rfl
  | cons p rest ih =>
    obtain ⟨k, v⟩ := p
    by_cases hk : k = id <;> simp [updateDoc, findDoc, hk, ih]

theorem toggleLike_found (id e : String) (store : Store) (a : Artifact)
    (he : e ≠ "") (hv : isValidId id = true) (hf : findDoc id store = some a) :
    toggleLike id (some e) store =
      (.ok (!(a.likedBy.contains e)),
       updateDoc id (applyUpdate (a.likedBy.contains e) e) store) := by
  unfold toggleLike
  simp [strTruthy, he, hv, hf]

theorem toggleLike_found_findDoc (id e : String) (store : Store) (a : Artifact)
    (he : e ≠ "") (hv : isValidId id = true) (hf : findDoc id store = some a) :
    findDoc id (toggleLike id (some e) store).2 = some (toggleDoc e a) := by
  rw [toggleLike_found id e store a he hv hf]
  simp [findDoc_updateDoc_self, hf, toggleDoc]

/-- C3:  For every artifact and every email, performing the toggle
operation twice in sequence (both succeed) returns the document to its
original state: the second response's `liked` flag is the negation of the
first's, and `likeCount` and the membership of `email` in `likedBy` equal
their values before the first toggle. -/
theorem c3_double_toggle_round_trip (id e : String) (store : Store)
    (a : Artifact) (he : e ≠ "") (hv : isValidId id = true)
    (hf : findDoc id store = some a) :
    (toggleLike id (some e) store).1 = .ok (!(a.likedBy.contains e)) ∧
    (toggleLike id (some e) (toggleLike id (some e) store).2).1 =
      .ok (a.likedBy.contains e) ∧
    findDoc id (toggleLike id (some e) (toggleLike id (some e) store).2).2 =
      some (toggleDoc e (toggleDoc e a)) ∧
    (toggleDoc e (toggleDoc e a)).likeCount = a.likeCount ∧
    (toggleDoc e (toggleDoc e a)).likedBy.contains e = a.likedBy.contains e := by
  have hf1 : findDoc id (toggleLike id (some e) store).2 = some (toggleDoc e a) :=
    toggleLike_found_findDoc id e store a he hv hf
  refine ⟨?_, ?_, ?_, ?_, ?_⟩
  · rw [toggleLike_found id e store a he hv hf]
  · rw [toggleLike_found id e _ (toggleDoc e a) he hv hf1, toggleDoc_contains,
      Bool.not_not]
  · rw [toggleLike_found id e _ (toggleDoc e a) he hv hf1]
    simp only [findDoc_updateDoc_self, hf1, Option.map_some]
    rfl
  · rw [toggleDoc_count, toggleDoc_contains, toggleDoc_count]
    cases h : a.likedBy.contains e <;> simp [h]
  · rw [toggleDoc_contains, toggleDoc_contains, Bool.not_not]

/-- Witness for C3 at a concrete input: a freshly created artifact toggled
twice by its creator. -/
theorem c3_double_toggle_round_trip_witness :
    (toggleLike exId (some "u@x.com") [(exId, exArtifact)]).1 = .ok true ∧
    (toggleLike exId (some "u@x.com")
        (toggleLike exId (some "u@x.com") [(exId, exArtifact)]).2).1 =
      .ok false ∧
    (toggleDoc "u@x.com" (toggleDoc "u@x.com" exArtifact)).likeCount =
      exArtifact.likeCount := by
  have h := c3_double_toggle_round_trip exId "u@x.com" [(exId, exArtifact)]
    exArtifact (by decide) (by decide) (by simp [findDoc])
  refine ⟨?_, ?_, h.2.2.2.1⟩
  · rw [h.1]; rfl
  · rw [h.2.1]; rfl

/-- C2 (failing-input evaluation):  The read-modify-write gap of the like-toggle handler: on a
fresh artifact (`likeCount = 0`, `likedBy = []`), two concurrent toggles by
the same email, interleaved as read/read/write/write, leave
`likeCount = 2` while `likedBy = ["u@x.com"]` — the email's net effect on
`likeCount` is `2`, not at most `1`, and the count/membership invariant is
broken.  (Both `findOne`s capture `hasLiked = false`; both `updateOne`s
then run `$inc: {likeCount: 1}`, while the second `$addToSet` is a no-op.) -/
theorem c2_concurrent_same_email_double_counts :
    (runSched
        { doc := exArtifact,
          ops := [⟨"u@x.com", none⟩, ⟨"u@x.com", none⟩] }
        [.read 0, .read 1, .write 0, .write 1]).doc.likeCount = 2 ∧
    (runSched
        { doc := exArtifact,
          ops := [⟨"u@x.com", none⟩, ⟨"u@x.com", none⟩] }
        [.read 0, .read 1, .write 0, .write 1]).doc.likedBy = ["u@x.com"] ∧
    (runSched
        { doc := exArtifact,
          ops := [⟨"u@x.com", none⟩, ⟨"u@x.com", none⟩] }
        [.read 0, .read 1, .write 0, .write 1]).doc.likeCount -
      exArtifact.likeCount = 2 := by
  decide

/-- A creation request whose `addedBy.email` is present but the empty
string. -/
def artEmptyEmail : Artifact := { exArtifact with addedBy := some ⟨some ""⟩ }

/-- C4 counterexample:  A creation request whose `addedBy.email` is
present (`some ""`) is nevertheless rejected with 400 and nothing is
persisted: the handler's guard is JS truthiness (`!artifact.addedBy?.email`),
which also fires on the empty string, so "present implies 201 + stored" is
false as stated. -/
theorem c4_counterexample :
    artEmptyEmail.addedBy = some ⟨some ""⟩ ∧
    postHistory artEmptyEmail exId [] = (PostResp.badRequest, []) ∧
    (postHistory artEmptyEmail exId []).1 ≠ PostResp.created exId := by
  decide

/-- C4 amended:  For every creation request: if `addedBy.email` is
absent or the empty string, the operation fails with 400 and nothing is
persisted; if it is present and non-empty, the stored document has
`likeCount == 0` and `likedBy == []` regardless of any caller-supplied
values for those two fields, and the response is 201 with the created id. -/
theorem c4_create_contract (body : Artifact) (newId : String) (store : Store) :
    ((addedByEmail body = none ∨ addedByEmail body = some "") →
        postHistory body newId store = (.badRequest, store)) ∧
    (∀ s, addedByEmail body = some s → s ≠ "" →
        (postHistory body newId store).1 = .created newId ∧
        findDoc newId (postHistory body newId store).2 =
          some { body with likedBy := [], likeCount := 0 } ∧
        ∀ b, findDoc newId (postHistory body newId store).2 = some b →
          b.likeCount = 0 ∧ b.likedBy = []) := by
  constructor
  · rintro (h | h) <;> simp [postHistory, strTruthy, h]
  · intro s hs hne
    have ht : strTruthy (addedByEmail body) = true := by
      simp [strTruthy, hs, hne]
    refine ⟨by simp [postHistory, ht], ?_, ?_⟩
    · simp [postHistory, ht, insertDoc, findDoc]
    · intro b hb
      simp [postHistory, ht, insertDoc, findDoc] at hb
      simp [← hb]

/-- Witness for C4 at concrete inputs: a request without `addedBy` is
rejected; a request smuggling `likedBy = ["x@y.z"]`, `likeCount = 5` is
stored with `likedBy = []`, `likeCount = 0`. -/
theorem c4_create_contract_witness :
    postHistory { exArtifact with addedBy := none } exId [] =
      (PostResp.badRequest, []) ∧
    (postHistory { exArtifact with likedBy := ["x@y.z"], likeCount := 5 }
        exId []).1 = PostResp.created exId ∧
    findDoc exId
        (postHistory { exArtifact with likedBy := ["x@y.z"], likeCount := 5 }
          exId []).2 =
      some { exArtifact with likedBy := [], likeCount := 0 } := by
  have h1 := (c4_create_contract { exArtifact with addedBy := none } exId []).1
    (Or.inl rfl)
  have h2 := (c4_create_contract
    { exArtifact with likedBy := ["x@y.z"], likeCount := 5 } exId []).2
    "u@x.com" rfl (by decide)
  exact ⟨h1, h2.1, by rw [h2.2.1]⟩

/-- C5:  For every toggle request: a missing or empty email yields 400
with no document change; a well-formed id matching no artifact yields 404
with no document change; if the artifact exists and the email is already a
member of `likedBy`, the operation decrements `likeCount` by 1, removes the
email from `likedBy`, and reports `liked: false`; if it is not a member,
the operation increments `likeCount` by 1, adds the email with set
semantics, and reports `liked: true`. -/
theorem c5_toggle_contract (id : String) (store : Store) :
    toggleLike id none store = (.badRequest, store) ∧
    toggleLike id (some "") store = (.badRequest, store) ∧
    (∀ e, e ≠ "" → isValidId id = true →
      (findDoc id store = none →
        toggleLike id (some e) store = (.notFound, store)) ∧
      (∀ a, findDoc id store = some a →
        (toggleLike id (some e) store).1 = .ok (!(a.likedBy.contains e)) ∧
        findDoc id (toggleLike id (some e) store).2 = some (toggleDoc e a) ∧
        (a.likedBy.contains e = true →
          (toggleDoc e a).likeCount = a.likeCount - 1 ∧
          (toggleDoc e a).likedBy.contains e = false) ∧
        (a.likedBy.contains e = false →
          (toggleDoc e a).likeCount = a.likeCount + 1 ∧
          (toggleDoc e a).likedBy.contains e = true))) := by
  refine ⟨by simp [toggleLike, strTruthy], by simp [toggleLike, strTruthy], ?_⟩
  intro e he hv
  constructor
  · intro hnone
    simp [toggleLike, strTruthy, he, hv, hnone]
  · intro a hf
    refine ⟨by rw [toggleLike_found id e store a he hv hf],
      toggleLike_found_findDoc id e store a he hv hf, ?_, ?_⟩
    · intro h
      rw [toggleDoc_count, toggleDoc_contains, h]
      simp
    · intro h
      rw [toggleDoc_count, toggleDoc_contains, h]
      simp

/-- Witness for C5 at concrete inputs: the 400, 404 and both toggle
branches evaluated on small stores. -/
theorem c5_toggle_contract_witness :
    toggleLike exId none [(exId, exArtifact)] =
      (.badRequest, [(exId, exArtifact)]) ∧
    toggleLike exId (some "u@x.com") [] = (.notFound, []) ∧
    (toggleLike exId (some "u@x.com") [(exId, exArtifact)]).1 = .ok true ∧
    (toggleDoc "u@x.com" exArtifact).likeCount = 1 ∧
    (toggleDoc "u@x.com" exArtifact).likedBy.contains "u@x.com" = true := by
  have h0 := (c5_toggle_contract exId [(exId, exArtifact)]).1
  have h404 := ((c5_toggle_contract exId []).2.2 "u@x.com" (by decide)
    (by decide)).1 rfl
  have h := ((c5_toggle_contract exId [(exId, exArtifact)]).2.2 "u@x.com"
    (by decide) (by decide)).2 exArtifact (by simp [findDoc])
  have hadd := h.2.2.2 (by decide)
  refine ⟨h0, h404, ?_, ?_, hadd.2⟩
  · rw [h.1]; rfl
  · rw [hadd.1]; rfl

/-- C6 counterexample:  A valid credential for `a@x.com` with a missing
`email` query parameter is answered 403, not 400: the handler compares
`req.user.email !== req.query.email` (403) before it checks `!email`
(400), and `"a@x.com" !== undefined` holds. -/
theorem c6_counterexample :
    myArtifacts (.valid (some "a@x.com")) none [] = MyResp.forbidden ∧
    myArtifacts (.valid (some "a@x.com")) none [] ≠ MyResp.badRequest := by
  decide

/-- C6 amended:  No/invalid credential → 401.  With a valid
credential, the identity-mismatch check runs first: whenever the
credential's email differs from the `email` query parameter — including
when the parameter is missing — the response is 403; 400 is returned only
when the credential's email equals the missing/empty parameter.  With a
valid credential whose email equals the non-empty parameter, the response
is 200 with exactly the artifacts whose `addedBy.email` equals that
email. -/
theorem c6_my_artifacts_contract (q : Option String) (store : Store) :
    myArtifacts .missing q store = .unauthorized ∧
    myArtifacts .invalid q store = .unauthorized ∧
    (∀ u, u ≠ q → myArtifacts (.valid u) q store = .forbidden) ∧
    (strTruthy q = false → myArtifacts (.valid q) q store = .badRequest) ∧
    (∀ s, s ≠ "" → q = some s →
      myArtifacts (.valid q) q store =
        .ok ((store.map Prod.snd).filter (addedByEmailIs q)) ∧
      ∀ a, a ∈ (store.map Prod.snd).filter (addedByEmailIs q) ↔
          (a ∈ store.map Prod.snd ∧ addedByEmail a = some s)) := by
  refine ⟨rfl, rfl, ?_, ?_, ?_⟩
  · intro u hu
    simp [myArtifacts, hu]
  · intro hq
    simp [myArtifacts, hq]
  · intro s hs hq
    subst hq
    constructor
    · simp [myArtifacts, strTruthy, hs]
    · intro a
      rw [List.mem_filter]
      simp [addedByEmailIs]

/-- Witness for C6 at concrete inputs: all four responses observed. -/
theorem c6_my_artifacts_contract_witness :
    myArtifacts .missing (some "u@x.com") [(exId, exArtifact)] =
      .unauthorized ∧
    myArtifacts (.valid (some "b@x.com")) (some "u@x.com")
      [(exId, exArtifact)] = .forbidden ∧
    myArtifacts (.valid none) none [(exId, exArtifact)] = .badRequest ∧
    myArtifacts (.valid (some "u@x.com")) (some "u@x.com")
      [(exId, exArtifact)] = .ok [exArtifact] := by
  have h := c6_my_artifacts_contract (some "u@x.com") [(exId, exArtifact)]
  have hok := (h.2.2.2.2 "u@x.com" (by decide) rfl).1
  have hbad := (c6_my_artifacts_contract none [(exId, exArtifact)]).2.2.2.1 rfl
  refine ⟨h.1, h.2.2.1 (some "b@x.com") (by decide), hbad, ?_⟩
  · rw [hok]; rfl

/-- C8:  For every artifact and every update request to
`PATCH /artifact/:id`, the stored document's `likedBy`, `likeCount` and
`addedBy` are unchanged, while each of the eight descriptive fields is
overwritten with whatever value the caller supplied for it, including
`undefined` (`none`) when absent from the request body. -/
theorem c8_update_frame (id : String) (u : UpdateReq) (store : Store)
    (a : Artifact) (hv : isValidId id = true)
    (hf : findDoc id store = some a) :
    findDoc id (updateArtifact id u store).2 = some (applyUpdateFields u a) ∧
    (applyUpdateFields u a).likedBy = a.likedBy ∧
    (applyUpdateFields u a).likeCount = a.likeCount ∧
    (applyUpdateFields u a).addedBy = a.addedBy ∧
    (applyUpdateFields u a).name = u.name ∧
    (applyUpdateFields u a).image = u.image ∧
    (applyUpdateFields u a).type = u.type ∧
    (applyUpdateFields u a).description = u.description ∧
    (applyUpdateFields u a).createdAt = u.createdAt ∧
    (applyUpdateFields u a).discoveredAt = u.discoveredAt ∧
    (applyUpdateFields u a).discoveredBy = u.discoveredBy ∧
    (applyUpdateFields u a).location = u.location := by
  refine ⟨?_, rfl, rfl, rfl, rfl, rfl, rfl, rfl, rfl, rfl, rfl, rfl⟩
  simp [updateArtifact, hv, hf, findDoc_updateDoc_self]

/-- Witness for C8 at a concrete input: an update request supplying only
`name` (everything else absent) rewrites all eight descriptive fields and
leaves the like state and creator untouched. -/
theorem c8_update_frame_witness :
    findDoc exId
        (updateArtifact exId
          ⟨some "Vase", none, none, none, none, none, none, none⟩
          [(exId, exArtifact)]).2 =
      some (applyUpdateFields
        ⟨some "Vase", none, none, none, none, none, none, none⟩ exArtifact) ∧
    (applyUpdateFields
        ⟨some "Vase", none, none, none, none, none, none, none⟩
        exArtifact).likeCount = exArtifact.likeCount ∧
    (applyUpdateFields
        ⟨some "Vase", none, none, none, none, none, none, none⟩
        exArtifact).image = none := by
  have h := c8_update_frame exId
    ⟨some "Vase", none, none, none, none, none, none, none⟩
    [(exId, exArtifact)] exArtifact (by decide) (by simp [findDoc])
  exact ⟨h.1, h.2.2.1, h.2.2.2.2.2.1⟩

/-- An artifact currently liked by its creator. -/
def exLiked : Artifact :=
  { exArtifact with likedBy := ["u@x.com"], likeCount := 1 }

/-- C9:  For every authenticated request to `GET /liked-artifacts`, the
operation returns the artifacts whose `likedBy` contains the caller's
verified email; when that set is empty the response is 404 rather than an
empty 200 list, and when it is non-empty the response is 200 with the
list. -/
theorem c9_liked_artifacts_contract (s : String) (store : Store) :
    (likedArtifacts (.valid (some s)) store = .notFound ↔
      ∀ a ∈ store.map Prod.snd, a.likedBy.contains s = false) ∧
    (∀ l, likedArtifacts (.valid (some s)) store = .ok l →
      l ≠ [] ∧ ∀ a, a ∈ l ↔ (a ∈ store.map Prod.snd ∧
        a.likedBy.contains s = true)) := by
  constructor
  · unfold likedArtifacts
    by_cases h : ((store.map Prod.snd).filter (likedByHas (some s))).length > 0
    · simp only [h, if_true]
      constructor
      · intro he; cases he
      · intro hall
        exfalso
        have : (store.map Prod.snd).filter (likedByHas (some s)) = [] := by
          rw [List.filter_eq_nil_iff]
          intro a ha hc
          simp only [likedByHas] at hc
          rw [hall a ha] at hc
          cases hc
        rw [this] at h
        simp at h
    · simp only [h, if_false]
      constructor
      · intro _ a ha
        by_contra hc
        have hmem : a ∈ (store.map Prod.snd).filter (likedByHas (some s)) := by
          rw [List.mem_filter]
          exact ⟨ha, by simpa [likedByHas] using hc⟩
        have : 0 < ((store.map Prod.snd).filter (likedByHas (some s))).length :=
          List.length_pos.mpr (fun hnil => by rw [hnil] at hmem; cases hmem)
        exact h this
      · intro _; trivial
  · intro l hl
    unfold likedArtifacts at hl
    by_cases h : ((store.map Prod.snd).filter (likedByHas (some s))).length > 0
    · simp only [h, if_true] at hl
      cases hl
      constructor
      · intro hnil
        rw [hnil] at h
        simp at h
      · intro a
        rw [List.mem_filter]
        simp [likedByHas]
    · simp only [h, if_false] at hl
      cases hl

/-- Witness for C9 at concrete inputs: the store whose only artifact is
liked by nobody yields 404, while the store whose only artifact is liked by
the caller does not. -/
theorem c9_liked_artifacts_contract_witness :
    likedArtifacts (.valid (some "u@x.com")) [(exId, exArtifact)] =
      .notFound ∧
    likedArtifacts (.valid (some "u@x.com")) [(exId, exLiked)] ≠
      .notFound := by
  constructor
  · exact (c9_liked_artifacts_contract "u@x.com" [(exId, exArtifact)]).1.mpr
      (by decide)
  · intro h
    have hc := (c9_liked_artifacts_contract "u@x.com" [(exId, exLiked)]).1.mp h
      exLiked (by decide)
    exact absurd hc (by decide)

/-! Section: Regex versus literal substring search -/

theorem matchHere_plain (p : List Char) (hp : ∀ c ∈ p, plainChar c = true) :
    ∀ s : List Char,
      matchHere p s = leadEq (p.map Char.toLower) (s.map Char.toLower) := by
  induction p with
  | nil => intro s; cases s <;> rfl
  | cons a as ih =>
    intro s
    have ha : plainChar a = true := hp a (by simp)
    have has : ∀ c ∈ as, plainChar c = true := fun c hc => hp c (by simp [hc])
    have hdot : (a == '.') = false := by
      cases hbe : a == '.' with
      | false => rfl
      | true =>
        have : a = '.' := eq_of_beq hbe
        subst this
        exact absurd ha (by decide)
    cases s with
    | nil => rfl
    | cons b bs =>
      simp [matchHere, leadEq, patCharMatch, hdot, ih has bs]

theorem regexSearch_plain (p : List Char) (hp : ∀ c ∈ p, plainChar c = true) :
    ∀ s : List Char,
      regexSearch p s = subOccurs (p.map Char.toLower) (s.map Char.toLower) := by
  intro s
  induction s with
  | nil => simpa [regexSearch, subOccurs] using matchHere_plain p hp []
  | cons c cs ih =>
    simp only [regexSearch, List.map_cons, subOccurs]
    rw [matchHere_plain p hp (c :: cs), ih]
    simp

/-- An artifact named "abc". -/
def artAbc : Artifact := { exArtifact with name := some "abc" }

/-- C7 counterexample:  The search string is passed to the store as a
regular expression, not as a literal substring: searching for `"."` returns
the artifact named `"abc"` (the regex `.` matches any character), although
`"abc"` does not contain `"."` as a substring. -/
theorem c7_counterexample :
    getHistory (some ".") [(exId, artAbc)] = [artAbc] ∧
    specSearchMatch "." artAbc = false ∧
    getHistory (some ".") [(exId, artAbc)] ≠
      ([(exId, artAbc)].map Prod.snd).filter (specSearchMatch ".") := by
  decide

/-- C7 amended:  `GET /history` with no or empty `search` returns all
artifacts.  With a non-empty search string, the store filters by the
case-insensitive **regex** `search`; whenever the search string contains no
regex metacharacter this coincides with the spec's reading: exactly the
artifacts whose `name` (when present) case-insensitively contains the
search string as a substring. -/
theorem c7_search_contract (s : String) (store : Store)
    (hs : s ≠ "") (hp : ∀ c ∈ s.data, plainChar c = true) :
    getHistory none store = store.map Prod.snd ∧
    getHistory (some "") store = store.map Prod.snd ∧
    getHistory (some s) store =
      (store.map Prod.snd).filter (specSearchMatch s) ∧
    (∀ a, a ∈ getHistory (some s) store ↔
        (a ∈ store.map Prod.snd ∧ specSearchMatch s a = true)) := by
  have hfil : getHistory (some s) store =
      (store.map Prod.snd).filter (specSearchMatch s) := by
    unfold getHistory
    rw [if_pos (by simp [strTruthy, hs])]
    apply List.filter_congr
    intro a _
    show nameMatches ((some s).getD "") a = specSearchMatch s a
    unfold nameMatches specSearchMatch
    cases a.name with
    | none => rfl
    | some n =>
      simp only [Option.getD]
      exact regexSearch_plain s.data hp n.data
  refine ⟨rfl, by simp [getHistory, strTruthy], hfil, ?_⟩
  intro a
  rw [hfil, List.mem_filter]

/-- Witness for C7 at concrete inputs: searching "URN" finds the artifact
named "Urn" case-insensitively; searching "xyz" does not. -/
theorem c7_search_contract_witness :
    getHistory none [(exId, exArtifact)] = [exArtifact] ∧
    getHistory (some "URN") [(exId, exArtifact)] =
      ([(exId, exArtifact)].map Prod.snd).filter (specSearchMatch "URN") ∧
    (exArtifact ∈ getHistory (some "URN") [(exId, exArtifact)] ↔
      (exArtifact ∈ [(exId, exArtifact)].map Prod.snd ∧
        specSearchMatch "URN" exArtifact = true)) ∧
    (exArtifact ∈ getHistory (some "xyz") [(exId, exArtifact)] ↔
      (exArtifact ∈ [(exId, exArtifact)].map Prod.snd ∧
        specSearchMatch "xyz" exArtifact = true)) := by
  have h1 := c7_search_contract "URN" [(exId, exArtifact)] (by decide)
    (by decide)
  have h2 := c7_search_contract "xyz" [(exId, exArtifact)] (by decide)
    (by decide)
  exact ⟨h1.1, h1.2.2.1, h1.2.2.2 exArtifact, h2.2.2.2 exArtifact⟩

/-! Section: Malformed identifiers -/

theorem toggleLike_invalid (id e : String) (store : Store)
    (he : e ≠ "") (hv : isValidId id = false) :
    toggleLike id (some e) store = (.serverError, store) := by
  simp [toggleLike, strTruthy, he, hv]

/-- C10 counterexample:  On the like-toggle endpoint the email
validation runs before the `ObjectId` constructor: a request with a
malformed `:id` and an empty email is answered 400, not 500, so "every
malformed-id request to these endpoints yields 500" is false as stated. -/
theorem c10_counterexample :
    isValidId "not-an-objectid" = false ∧
    toggleLike "not-an-objectid" (some "") [(exId, exArtifact)] =
      (.badRequest, [(exId, exArtifact)]) ∧
    (toggleLike "not-an-objectid" (some "") [(exId, exArtifact)]).1 ≠
      ToggleResp.serverError := by
  decide

/-- C10 amended:  For the per-artifact endpoints, a malformed `:id`
makes the `ObjectId` constructor throw before any store query and the
catch branch answers 500 with no document modified — except that the
like-toggle endpoint validates the email first and answers 400 (still
modifying nothing) when the email is missing or empty.  404 is returned
only for well-formed identifiers that match no document. -/
theorem c10_malformed_id_contract (id : String) (store : Store)
    (hv : isValidId id = false) :
    (∀ e, e ≠ "" → toggleLike id (some e) store = (.serverError, store)) ∧
    toggleLike id none store = (.badRequest, store) ∧
    toggleLike id (some "") store = (.badRequest, store) ∧
    (∀ u, updateArtifact id u store = (.serverError, store)) ∧
    deleteArtifact id store = (.serverError, store) ∧
    getArtifact id store = .serverError ∧
    (∀ id2 e store2, (toggleLike id2 (some e) store2).1 = ToggleResp.notFound →
        isValidId id2 = true) ∧
    (∀ id2 store2, (deleteArtifact id2 store2).1 = DeleteResp.notFound →
        isValidId id2 = true) ∧
    (∀ id2 store2, getArtifact id2 store2 = GetResp.notFound →
        isValidId id2 = true) := by
  refine ⟨fun e he => toggleLike_invalid id e store he hv,
    by simp [toggleLike, strTruthy],
    by simp [toggleLike, strTruthy],
    fun u => by simp [updateArtifact, hv],
    by simp [deleteArtifact, hv],
    by simp [getArtifact, hv], ?_, ?_, ?_⟩
  · intro id2 e store2 h
    by_cases hval : isValidId id2 = true
    · exact hval
    · exfalso
      have hv2 : isValidId id2 = false := by simpa using hval
      by_cases he : e = ""
      · subst he
        simp [toggleLike, strTruthy] at h
      · rw [toggleLike_invalid id2 e store2 he hv2] at h
        cases h
  · intro id2 store2 h
    by_cases hval : isValidId id2 = true
    · exact hval
    · exfalso
      have hv2 : isValidId id2 = false := by simpa using hval
      simp [deleteArtifact, hv2] at h
  · intro id2 store2 h
    by_cases hval : isValidId id2 = true
    · exact hval
    · exfalso
      have hv2 : isValidId id2 = false := by simpa using hval
      simp [getArtifact, hv2] at h

/-- Witness for C10 at concrete inputs: every per-artifact endpoint
answers 500 on the malformed id "bad" without touching the store, and a 404
observed on `DELETE` implies its id was well-formed. -/
theorem c10_malformed_id_contract_witness :
    toggleLike "bad" (some "u@x.com") [(exId, exArtifact)] =
      (.serverError, [(exId, exArtifact)]) ∧
    updateArtifact "bad" ⟨none, none, none, none, none, none, none, none⟩
      [(exId, exArtifact)] = (.serverError, [(exId, exArtifact)]) ∧
    deleteArtifact "bad" [(exId, exArtifact)] =
      (.serverError, [(exId, exArtifact)]) ∧
    getArtifact "bad" [(exId, exArtifact)] = .serverError ∧
    isValidId exId2 = true := by
  have h := c10_malformed_id_contract "bad" [(exId, exArtifact)] (by decide)
  exact ⟨h.1 "u@x.com" (by decide),
    h.2.2.2.1 ⟨none, none, none, none, none, none, none, none⟩,
    h.2.2.2.2.1, h.2.2.2.2.2.1,
    h.2.2.2.2.2.2.2.1 exId2 [] (by decide)⟩

end Historical
